import Mathlib

/- Shallow embedding of the Siemens automobile digital-twin core
   (src/digital_twin/core.py and src/simulation/engine.py).

   Conventions of the embedding:
   * Python floats are modelled as exact rationals (IEEE rounding is not
     modelled); `np.pi` is embedded as the IEEE-754 double closest to pi.
   * `datetime.now()` readings are modelled as explicit external inputs
     (a natural-number clock value passed to the operation that reads it).
   * The Gaussian noise draws `np.random.normal(...)` inside
     `BatteryPack.discharge` are modelled as explicit noise-input functions.
   * A Python `ZeroDivisionError` (division by `current_voltage = 0` in
     `BatteryPack.discharge` / `BatteryPack.charge`) is modelled by the
     operation returning `none`.
   * A `Sensor` is represented by its mutable `value`; its identity fields,
     timestamp and calibration factor are constant or only affect the noisy
     `read()`, which no modelled operation uses. -/

namespace SiemensAuto

/-- The IEEE-754 double-precision value of `np.pi`, as an exact rational. -/
def npPi : ℚ := 884279719003555 / 281474976710656

/-- Python float modulo `t % m` (for a positive modulus `m`):
`t - m * floor (t / m)`. -/
def pymod (t m : ℚ) : ℚ := t - m * (⌊t / m⌋ : ℚ)

/-- Python builtin `min` on two values (returns the first when equal). -/
def pymin (a b : ℚ) : ℚ := if a ≤ b then a else b

/-- Python builtin `max` on two values (returns the first when equal). -/
def pymax (a b : ℚ) : ℚ := if a < b then b else a

theorem pymin_eq (a b : ℚ) : pymin a b = min a b := by
  unfold pymin
  split_ifs with h
  · exact (min_eq_left h).symm
  · exact (min_eq_right (le_of_not_le h)).symm

theorem pymax_eq (a b : ℚ) : pymax a b = max a b := by
  unfold pymax
  split_ifs with h
  · exact (max_eq_right h.le).symm
  · exact (max_eq_left (not_lt.mp h)).symm

/-- Python `round` to the nearest integer, ties to even (banker's rounding). -/
def roundHalfEven (x : ℚ) : ℤ :=
  if x - (⌊x⌋ : ℚ) < 1/2 then ⌊x⌋
  else if (1/2 : ℚ) < x - (⌊x⌋ : ℚ) then ⌊x⌋ + 1
  else if ⌊x⌋ % 2 = 0 then ⌊x⌋ else ⌊x⌋ + 1

/-- Python `round(x, 2)`: round to two decimal places. -/
def round2 (x : ℚ) : ℚ := (roundHalfEven (x * 100) : ℚ) / 100

/-- Holds a predicate on the payload of an `Option`, vacuously on `none`. -/
def optSat {α : Type} (P : α → Prop) : Option α → Prop
  | none => True
  | some a => P a

/-- State of `ElectricMotor` (core.py lines 47-102); the three owned sensors
are represented by their current values. -/
structure ElectricMotor where
  max_power_kw : ℚ
  max_torque_nm : ℚ
  current_rpm : ℚ
  current_torque_nm : ℚ
  current_power_kw : ℚ
  temperature_c : ℚ
  efficiency : ℚ
  total_runtime_hours : ℚ
  health_score : ℚ
  temp_sensor : ℚ
  torque_sensor : ℚ
  rpm_sensor : ℚ
deriving Repr, DecidableEq

/-- `ElectricMotor.__init__` (sensor values start at 0.0). -/
def ElectricMotor.init (max_power_kw max_torque_nm : ℚ) : ElectricMotor :=
  { max_power_kw := max_power_kw, max_torque_nm := max_torque_nm,
    current_rpm := 0, current_torque_nm := 0, current_power_kw := 0,
    temperature_c := 25, efficiency := 95/100, total_runtime_hours := 0,
    health_score := 100, temp_sensor := 0, torque_sensor := 0, rpm_sensor := 0 }

/-- `ElectricMotor.apply_load` (core.py lines 66-92). -/
def ElectricMotor.apply_load (m : ElectricMotor) (requested_torque rpm : ℚ) :
    ElectricMotor :=
  let torque := pymin requested_torque m.max_torque_nm
  let omega := rpm * 2 * npPi / 60
  let power := pymin (torque * omega / 1000 * m.efficiency) m.max_power_kw
  let heat_generated := power * (1 - m.efficiency)
  let temp1 := m.temperature_c + heat_generated * (1/10)
  let temp2 := temp1 - (temp1 - 25) * (5/100)
  { m with
    current_torque_nm := torque,
    current_rpm := rpm,
    current_power_kw := power,
    temperature_c := temp2,
    temp_sensor := temp2,
    torque_sensor := torque,
    rpm_sensor := rpm,
    health_score := if 120 < temp2 then m.health_score - 1/1000 else m.health_score }

/-- `ElectricMotor.get_status` payload (core.py lines 94-102). -/
structure MotorStatus where
  power_kw : ℚ
  torque_nm : ℚ
  rpm : ℚ
  temperature_c : ℚ
  efficiency : ℚ
  health_score : ℚ
deriving Repr, DecidableEq

/-- `ElectricMotor.get_status` (core.py lines 94-102); pure read. -/
def ElectricMotor.get_status (m : ElectricMotor) : MotorStatus :=
  { power_kw := round2 m.current_power_kw,
    torque_nm := round2 m.current_torque_nm,
    rpm := round2 m.current_rpm,
    temperature_c := round2 m.temperature_c,
    efficiency := m.efficiency,
    health_score := round2 m.health_score }

/-- State of `BatteryPack` (core.py lines 105-180); the ten cell-voltage
sensors and four temperature sensors are represented by their values. -/
structure BatteryPack where
  capacity_kwh : ℚ
  nominal_voltage : ℚ
  current_charge_kwh : ℚ
  current_voltage : ℚ
  current_amperage : ℚ
  temperature_c : ℚ
  health_soh : ℚ
  cycle_count : ℕ
  cells_series : ℚ
  cells_parallel : ℚ
  cell_voltages : List ℚ
  temp_sensors : List ℚ
deriving Repr, DecidableEq

/-- `BatteryPack.__init__` (starts at 80% charge). -/
def BatteryPack.init (capacity_kwh nominal_voltage : ℚ) : BatteryPack :=
  { capacity_kwh := capacity_kwh, nominal_voltage := nominal_voltage,
    current_charge_kwh := capacity_kwh * (8/10),
    current_voltage := nominal_voltage,
    current_amperage := 0, temperature_c := 25, health_soh := 100,
    cycle_count := 0, cells_series := 96, cells_parallel := 4,
    cell_voltages := List.replicate 10 0, temp_sensors := List.replicate 4 0 }

/-- `BatteryPack.get_soc` (core.py lines 158-160). -/
def BatteryPack.get_soc (b : BatteryPack) : ℚ :=
  b.current_charge_kwh / b.capacity_kwh

/-- `BatteryPack.efficiency_discharge` (core.py lines 162-165). -/
def BatteryPack.efficiency_discharge (b : BatteryPack) : ℚ :=
  let temp_factor : ℚ :=
    if 20 ≤ b.temperature_c ∧ b.temperature_c ≤ 40 then 1 else 95/100
  (95/100) * temp_factor

/-- `BatteryPack.efficiency_charge` (core.py lines 167-169). -/
def BatteryPack.efficiency_charge (_ : BatteryPack) : ℚ := 92/100

/-- The successful body of `BatteryPack.discharge` (core.py lines 126-148):
the state produced when `current_voltage` is nonzero.  `noiseV i` / `noiseT i`
are the `np.random.normal` draws added to the i-th cell-voltage /
pack-temperature sensor. -/
def BatteryPack.dischargeRun (b : BatteryPack) (power_kw time_step_hours : ℚ)
    (noiseV noiseT : ℕ → ℚ) : BatteryPack :=
  let eff := b.efficiency_discharge
  let energy_consumed := power_kw * time_step_hours
  let charge := pymax 0 (b.current_charge_kwh - energy_consumed / eff)
  let amperage := power_kw * 1000 / b.current_voltage
  let voltage := b.nominal_voltage * (charge / b.capacity_kwh)
  let heat := power_kw * (1 - eff) * (1/2)
  let temp1 := b.temperature_c + heat
  let temp2 := temp1 - (temp1 - 25) * (1/10)
  let cell_voltage := voltage / b.cells_series
  { b with
    current_charge_kwh := charge,
    current_amperage := amperage,
    current_voltage := voltage,
    temperature_c := temp2,
    cell_voltages := (List.range 10).map (fun i => cell_voltage + noiseV i),
    temp_sensors := (List.range 4).map (fun i => temp2 + noiseT i) }

/-- `BatteryPack.discharge` (core.py lines 126-148).  The source divides
`power_kw * 1000` by `current_voltage` with no guard, so a zero voltage
raises `ZeroDivisionError`, modelled here as `none` (the source mutates the
charge on lines 128-130 before the raise; that partially-mutated state is
unreachable by further calls and is not tracked). -/
def BatteryPack.discharge (b : BatteryPack) (power_kw time_step_hours : ℚ)
    (noiseV noiseT : ℕ → ℚ) : Option BatteryPack :=
  if b.current_voltage = 0 then none
  else some (b.dischargeRun power_kw time_step_hours noiseV noiseT)

/-- The successful body of `BatteryPack.charge` (core.py lines 150-156). -/
def BatteryPack.chargeRun (b : BatteryPack) (power_kw time_step_hours : ℚ) :
    BatteryPack :=
  let energy_added := power_kw * time_step_hours * b.efficiency_charge
  { b with
    current_charge_kwh := pymin b.capacity_kwh (b.current_charge_kwh + energy_added),
    current_amperage := -(power_kw * 1000) / b.current_voltage }

/-- `BatteryPack.charge` (core.py lines 150-156); like `discharge` it divides
by `current_voltage` unguarded. -/
def BatteryPack.charge (b : BatteryPack) (power_kw time_step_hours : ℚ) :
    Option BatteryPack :=
  if b.current_voltage = 0 then none
  else some (b.chargeRun power_kw time_step_hours)

/-- `BatteryPack.get_status` payload (core.py lines 171-180). -/
structure BatteryStatus where
  soc_percent : ℚ
  charge_kwh : ℚ
  voltage : ℚ
  current_a : ℚ
  temperature_c : ℚ
  health_soh : ℚ
  cycle_count : ℕ
deriving Repr, DecidableEq

/-- `BatteryPack.get_status` (core.py lines 171-180); pure read. -/
def BatteryPack.get_status (b : BatteryPack) : BatteryStatus :=
  { soc_percent := round2 (b.get_soc * 100),
    charge_kwh := round2 b.current_charge_kwh,
    voltage := round2 b.current_voltage,
    current_a := round2 b.current_amperage,
    temperature_c := round2 b.temperature_c,
    health_soh := round2 b.health_soh,
    cycle_count := b.cycle_count }

/-- State of `VehicleDynamics` (core.py lines 183-241). -/
structure VehicleDynamics where
  mass_kg : ℚ
  velocity_mps : ℚ
  acceleration_mps2 : ℚ
  position_m : ℚ
  drag_coefficient : ℚ
  frontal_area_m2 : ℚ
  rolling_resistance : ℚ
  brake_force_n : ℚ
  speed_sensor : ℚ
  accel_sensor : ℚ
  position_sensor : ℚ
deriving Repr, DecidableEq

/-- `VehicleDynamics.__init__`. -/
def VehicleDynamics.init (mass_kg : ℚ) : VehicleDynamics :=
  { mass_kg := mass_kg, velocity_mps := 0, acceleration_mps2 := 0,
    position_m := 0, drag_coefficient := 28/100, frontal_area_m2 := 23/10,
    rolling_resistance := 15/1000, brake_force_n := 0,
    speed_sensor := 0, accel_sensor := 0, position_sensor := 0 }

/-- `VehicleDynamics.update` (core.py lines 201-228). -/
def VehicleDynamics.update (d : VehicleDynamics)
    (motor_torque_nm time_step_s gear_ratio : ℚ) : VehicleDynamics :=
  let wheel_radius_m : ℚ := 35/100
  let drive_force_n := motor_torque_nm * gear_ratio / wheel_radius_m
  let air_density : ℚ := 1225/1000
  let drag_force_n := (1/2) * air_density * d.drag_coefficient *
    d.frontal_area_m2 * d.velocity_mps ^ 2
  let rolling_force_n := d.rolling_resistance * d.mass_kg * (981/100)
  let net_force_n := drive_force_n - drag_force_n - rolling_force_n - d.brake_force_n
  let a := net_force_n / d.mass_kg
  let v := pymax 0 (d.velocity_mps + a * time_step_s)
  let x := d.position_m + v * time_step_s
  { d with
    acceleration_mps2 := a,
    velocity_mps := v,
    position_m := x,
    speed_sensor := v * (36/10),
    accel_sensor := a,
    position_sensor := x }

/-- `VehicleDynamics.apply_brakes` (core.py lines 230-233). -/
def VehicleDynamics.apply_brakes (d : VehicleDynamics)
    (brake_percentage : ℚ) : VehicleDynamics :=
  { d with brake_force_n := d.mass_kg * (981/100) * (8/10) * (brake_percentage / 100) }

/-- `VehicleDynamics.get_status` payload (core.py lines 235-241). -/
structure VehicleStatus where
  speed_kmh : ℚ
  acceleration_mps2 : ℚ
  position_km : ℚ
  brake_force_n : ℚ
deriving Repr, DecidableEq

/-- `VehicleDynamics.get_status` (core.py lines 235-241); pure read. -/
def VehicleDynamics.get_status (d : VehicleDynamics) : VehicleStatus :=
  { speed_kmh := round2 (d.velocity_mps * (36/10)),
    acceleration_mps2 := round2 d.acceleration_mps2,
    position_km := round2 (d.position_m / 1000),
    brake_force_n := round2 d.brake_force_n }

/-- `DigitalTwin.get_telemetry` payload (core.py lines 288-296).  The
`timestamp` field is the `datetime.now()` reading taken at the call. -/
structure TelemetrySnapshot where
  timestamp : ℕ
  simulation_time : ℚ
  motor : MotorStatus
  battery : BatteryStatus
  vehicle : VehicleStatus
deriving Repr, DecidableEq

/-- The configuration sections `DigitalTwin.__init__` reads (core.py
lines 247-257). -/
structure Config where
  max_power_kw : ℚ
  max_torque_nm : ℚ
  capacity_kwh : ℚ
  voltage_nominal : ℚ
  weight_kg : ℚ
deriving Repr, DecidableEq

/-- State of `DigitalTwin` (core.py lines 244-305). -/
structure DigitalTwin where
  motor : ElectricMotor
  battery : BatteryPack
  dynamics : VehicleDynamics
  simulation_time : ℚ
  telemetry_log : List TelemetrySnapshot
deriving Repr, DecidableEq

/-- `DigitalTwin.__init__` (core.py lines 247-260). -/
def DigitalTwin.init (c : Config) : DigitalTwin :=
  { motor := ElectricMotor.init c.max_power_kw c.max_torque_nm,
    battery := BatteryPack.init c.capacity_kwh c.voltage_nominal,
    dynamics := VehicleDynamics.init c.weight_kg,
    simulation_time := 0,
    telemetry_log := [] }

/-- The configuration of the spec's end-to-end test (spec.md section 8). -/
def specConfig : Config :=
  { max_power_kw := 150, max_torque_nm := 310, capacity_kwh := 75,
    voltage_nominal := 400, weight_kg := 1800 }

/-- The motor update performed by `DigitalTwin.step` (core.py lines 264-274):
requested torque from the throttle, motor rpm inverted from the current
vehicle velocity, then `apply_load`. -/
def DigitalTwin.stepMotor (t : DigitalTwin) (throttle_percent : ℚ) : ElectricMotor :=
  t.motor.apply_load (t.motor.max_torque_nm * (throttle_percent / 100))
    (t.dynamics.velocity_mps / (35/100) * 10 * (60 / (2 * npPi)))

/-- The battery update performed by `DigitalTwin.step` (core.py lines
276-278): discharge only when the motor's realized power is positive. -/
def DigitalTwin.stepBattery (t : DigitalTwin) (motor : ElectricMotor)
    (time_step_s : ℚ) (noiseV noiseT : ℕ → ℚ) : Option BatteryPack :=
  if 0 < motor.current_power_kw then
    t.battery.discharge motor.current_power_kw (time_step_s / 3600) noiseV noiseT
  else some t.battery

/-- `DigitalTwin.step` (core.py lines 262-286): motor, then battery, then
brakes and vehicle dynamics, then the simulation clock.  `none` models a
`ZeroDivisionError` escaping from `BatteryPack.discharge`. -/
def DigitalTwin.step (t : DigitalTwin) (throttle_percent brake_percent : ℚ)
    (time_step_s : ℚ) (noiseV noiseT : ℕ → ℚ) : Option DigitalTwin :=
  (t.stepBattery (t.stepMotor throttle_percent) time_step_s noiseV noiseT).map
    (fun battery =>
      { motor := t.stepMotor throttle_percent,
        battery := battery,
        dynamics := (t.dynamics.apply_brakes brake_percent).update
          (t.stepMotor throttle_percent).current_torque_nm time_step_s 10,
        simulation_time := t.simulation_time + time_step_s,
        telemetry_log := t.telemetry_log })

/-- `DigitalTwin.get_telemetry` (core.py lines 288-296); `now` is the
`datetime.now()` reading taken during the call; pure read otherwise. -/
def DigitalTwin.get_telemetry (t : DigitalTwin) (now : ℕ) : TelemetrySnapshot :=
  { timestamp := now,
    simulation_time := round2 t.simulation_time,
    motor := t.motor.get_status,
    battery := t.battery.get_status,
    vehicle := t.dynamics.get_status }

/-- `DigitalTwin.log_telemetry` (core.py lines 298-300): append the current
snapshot to the log. -/
def DigitalTwin.log_telemetry (t : DigitalTwin) (now : ℕ) : DigitalTwin :=
  { t with telemetry_log := t.telemetry_log ++ [t.get_telemetry now] }

/-- A driving scenario (engine.py lines 16-25): a name, a duration, and the
control-input function mapping elapsed time to (throttle%, brake%). -/
structure DrivingScenario where
  name : String
  duration_s : ℚ
  control : ℚ → ℚ × ℚ

/-- `UrbanDrivingScenario.get_control_inputs` (engine.py lines 34-52):
stop-and-go traffic over a 60-second cycle. -/
def UrbanDrivingScenario.get_control_inputs (time : ℚ) : ℚ × ℚ :=
  let t := pymod time 60
  if t < 20 then (pymin (40 + t * 2) 60, 0)
  else if t < 30 then (30, 0)
  else if t < 40 then (0, 20 + (t - 30) * 3)
  else (0, 50)

/-- `HighwayDrivingScenario.get_control_inputs` (engine.py lines 61-72);
`npSin` is the embedding's interpretation of `np.sin` on floats. -/
def HighwayDrivingScenario.get_control_inputs (npSin : ℚ → ℚ) (time : ℚ) :
    ℚ × ℚ :=
  if time < 60 then (pymin (70 + time) 100, 0)
  else if 1800 - 120 < time then (30, 20)
  else (45 + npSin (time * (1/10)) * 5, 0)

/-- `AggressiveDrivingScenario.get_control_inputs` (engine.py lines 81-98):
hard accelerations and braking over a 30-second cycle. -/
def AggressiveDrivingScenario.get_control_inputs (time : ℚ) : ℚ × ℚ :=
  let t := pymod time 30
  if t < 10 then (100, 0)
  else if t < 15 then (0, 0)
  else if t < 20 then (0, 80)
  else (0, 50)

/-- `EcoModeScenario.get_control_inputs` (engine.py lines 107-121):
smooth accelerations over a 90-second cycle. -/
def EcoModeScenario.get_control_inputs (time : ℚ) : ℚ × ℚ :=
  let t := pymod time 90
  if t < 30 then (pymin (20 + t * (8/10)) 40, 0)
  else if t < 60 then (35, 0)
  else (pymax (35 - (t - 60) * (12/10)) 0, 10)

/-- The Urban scenario (engine.py lines 28-32): 600 s duration. -/
def urbanScenario : DrivingScenario :=
  { name := "Urban Driving", duration_s := 600,
    control := UrbanDrivingScenario.get_control_inputs }

/-- The Highway scenario (engine.py lines 55-59): 1800 s duration. -/
def highwayScenario (npSin : ℚ → ℚ) : DrivingScenario :=
  { name := "Highway Driving", duration_s := 1800,
    control := HighwayDrivingScenario.get_control_inputs npSin }

/-- The Aggressive scenario (engine.py lines 75-79): 300 s duration. -/
def aggressiveScenario : DrivingScenario :=
  { name := "Aggressive Driving", duration_s := 300,
    control := AggressiveDrivingScenario.get_control_inputs }

/-- The Eco scenario (engine.py lines 101-105): 900 s duration. -/
def ecoScenario : DrivingScenario :=
  { name := "Eco Mode", duration_s := 900,
    control := EcoModeScenario.get_control_inputs }

/-- The scenario dictionary built in `SimulationEngine.__init__` (engine.py
lines 130-135), accessed as the membership test plus lookup of engine.py
lines 139-142: `none` exactly when `scenario_name` is not a registered key. -/
def lookupScenario (npSin : ℚ → ℚ) (scenario_name : String) :
    Option DrivingScenario :=
  if scenario_name = "urban" then some urbanScenario
  else if scenario_name = "highway" then some (highwayScenario npSin)
  else if scenario_name = "aggressive" then some aggressiveScenario
  else if scenario_name = "eco" then some ecoScenario
  else none

/-- State of `SimulationEngine` (engine.py lines 124-135). -/
structure SimulationEngine where
  digital_twin : DigitalTwin
  time_step : ℚ

/-- The stepping loop of `SimulationEngine.run_scenario` (engine.py lines
148-162), recursing on the number of remaining steps.  `stepIdx` counts the
steps already executed (so `current_time = stepIdx * dt`), `log_counter` is
the periodic-logging counter, `noiseV`/`noiseT` give the battery sensor
noise of each step and `clock` the wall-clock reading of each `log_telemetry`
call.  `none` models a `ZeroDivisionError` escaping from `DigitalTwin.step`.
The progress printout of engine.py lines 165-171 only reads and prints
telemetry and is omitted. -/
def runScenarioLoop (control : ℚ → ℚ × ℚ) (dt : ℚ) (log_interval : ℕ)
    (noiseV noiseT : ℕ → ℕ → ℚ) (clock : ℕ → ℕ) :
    DigitalTwin → ℕ → ℕ → ℕ → Option DigitalTwin
  | twin, _, 0, _ => some twin
  | twin, stepIdx, n + 1, log_counter =>
    let inputs := control ((stepIdx : ℚ) * dt)
    match twin.step inputs.1 inputs.2 dt (noiseV stepIdx) (noiseT stepIdx) with
    | none => none
    | some twin1 =>
      if log_interval ≤ log_counter + 1 then
        runScenarioLoop control dt log_interval noiseV noiseT clock
          (twin1.log_telemetry (clock stepIdx)) (stepIdx + 1) n 0
      else
        runScenarioLoop control dt log_interval noiseV noiseT clock
          twin1 (stepIdx + 1) n (log_counter + 1)

/-- Outcome of `SimulationEngine.run_scenario`: normal completion with the
final engine state, the pre-run `ValueError("Unknown scenario: ...")` with
the engine state at raise time, or a `ZeroDivisionError` propagating out of
a step (whose partially-mutated state is not tracked). -/
inductive SimOutcome where
  | ok (engine : SimulationEngine)
  | unknownScenario (engine : SimulationEngine)
  | stepFailure

/-- Package the stepping loop's result as the run's outcome. -/
def loopOutcome (o : Option DigitalTwin) (e : SimulationEngine) : SimOutcome :=
  match o with
  | none => .stepFailure
  | some twin => .ok { e with digital_twin := twin }

/-- `SimulationEngine.run_scenario` (engine.py lines 137-174): raise on an
unregistered name before touching any state, otherwise run
`int(duration_s / time_step)` fixed steps with periodic logging. -/
def SimulationEngine.run_scenario (e : SimulationEngine)
    (scenario_name : String) (log_interval : ℕ)
    (noiseV noiseT : ℕ → ℕ → ℚ) (clock : ℕ → ℕ) (npSin : ℚ → ℚ) : SimOutcome :=
  match lookupScenario npSin scenario_name with
  | none => .unknownScenario e
  | some scenario =>
    loopOutcome (runScenarioLoop scenario.control e.time_step log_interval
      noiseV noiseT clock e.digital_twin 0
      ((⌊scenario.duration_s / e.time_step⌋).toNat) 0) e

/-- A zero noise stream, for concrete runs. -/
def zeroNoise : ℕ → ℚ := fun _ => 0

/-- The clamp into [0, 100] that the spec says `DigitalTwin.step` applies to
its control inputs.  Modelled from the spec's words ("invalid control inputs
(throttle/brake outside [0,100]) should be clamped"), for comparison with
the code. -/
def clampSpec (x : ℚ) : ℚ := pymax 0 (pymin 100 x)

/-- Claim C2 (counterexample): at requested torque -1 and rpm 0, the motor
state after `apply_load` violates `0 <= current_torque_nm`, because the code
clamps the requested torque only from above. -/
theorem apply_load_negative_request_violates_bounds :
    ¬ (0 ≤ ((ElectricMotor.init 150 310).apply_load (-1) 0).current_torque_nm ∧
       ((ElectricMotor.init 150 310).apply_load (-1) 0).current_torque_nm ≤
         ((ElectricMotor.init 150 310).apply_load (-1) 0).max_torque_nm ∧
       ((ElectricMotor.init 150 310).apply_load (-1) 0).current_power_kw ≤
         ((ElectricMotor.init 150 310).apply_load (-1) 0).max_power_kw) := by
  intro hcon
  have htq : ((ElectricMotor.init 150 310).apply_load (-1) 0).current_torque_nm = -1 := by
    simp only [ElectricMotor.apply_load, ElectricMotor.init, pymin]
    norm_num
  have h0 := hcon.1
  rw [htq] at h0
  norm_num at h0

/-- Claim C2 (amended): for every non-negative requested torque and every
rpm, after `ElectricMotor.apply_load` (with a non-negative torque limit) the
state satisfies `0 <= current_torque_nm <= max_torque_nm` and
`current_power_kw <= max_power_kw`. -/
theorem apply_load_torque_power_clamped (m : ElectricMotor)
    (requested_torque rpm : ℚ) (hreq : 0 ≤ requested_torque)
    (hmax : 0 ≤ m.max_torque_nm) :
    0 ≤ (m.apply_load requested_torque rpm).current_torque_nm ∧
    (m.apply_load requested_torque rpm).current_torque_nm ≤
      (m.apply_load requested_torque rpm).max_torque_nm ∧
    (m.apply_load requested_torque rpm).current_power_kw ≤
      (m.apply_load requested_torque rpm).max_power_kw := by
  refine ⟨?_, ?_, ?_⟩
  · simp only [ElectricMotor.apply_load]
    rw [pymin_eq]
    exact le_min hreq hmax
  · simp only [ElectricMotor.apply_load]
    rw [pymin_eq]
    exact min_le_right _ _
  · simp only [ElectricMotor.apply_load]
    rw [pymin_eq]
    exact min_le_right _ _

/-- Claim C2 (witness): the amended theorem applied at requested torque 100
and rpm 3000 on the default motor. -/
theorem apply_load_torque_power_clamped_witness :
    (0 ≤ (100 : ℚ)) ∧ (0 ≤ (ElectricMotor.init 150 310).max_torque_nm) ∧
    (0 ≤ ((ElectricMotor.init 150 310).apply_load 100 3000).current_torque_nm ∧
     ((ElectricMotor.init 150 310).apply_load 100 3000).current_torque_nm ≤
       ((ElectricMotor.init 150 310).apply_load 100 3000).max_torque_nm ∧
     ((ElectricMotor.init 150 310).apply_load 100 3000).current_power_kw ≤
       ((ElectricMotor.init 150 310).apply_load 100 3000).max_power_kw) :=
  ⟨by norm_num, by norm_num [ElectricMotor.init],
    apply_load_torque_power_clamped (ElectricMotor.init 150 310) 100 3000
      (by norm_num) (by norm_num [ElectricMotor.init])⟩

/-- Claim C3: after `VehicleDynamics.update` with a positive time step and a
non-negative starting velocity, the velocity is non-negative and the position
is monotonically non-decreasing. -/
theorem update_velocity_nonneg_position_monotone (d : VehicleDynamics)
    (motor_torque_nm time_step_s gear_ratio : ℚ)
    (hdt : 0 < time_step_s) (_hv : 0 ≤ d.velocity_mps) :
    0 ≤ (d.update motor_torque_nm time_step_s gear_ratio).velocity_mps ∧
    d.position_m ≤ (d.update motor_torque_nm time_step_s gear_ratio).position_m := by
  have hvel : 0 ≤ (d.update motor_torque_nm time_step_s gear_ratio).velocity_mps := by
    simp only [VehicleDynamics.update]
    rw [pymax_eq]
    exact le_max_left _ _
  have hpos : (d.update motor_torque_nm time_step_s gear_ratio).position_m =
      d.position_m +
        (d.update motor_torque_nm time_step_s gear_ratio).velocity_mps * time_step_s := by
    simp only [VehicleDynamics.update]
  refine ⟨hvel, ?_⟩
  rw [hpos]
  nlinarith [mul_nonneg hvel hdt.le]

/-- Claim C3 (witness): the theorem applied to the fresh 1800 kg vehicle
with torque 100, time step 1/10 and gear ratio 10. -/
theorem update_velocity_nonneg_position_monotone_witness :
    (0 < (1/10 : ℚ)) ∧ (0 ≤ (VehicleDynamics.init 1800).velocity_mps) ∧
    (0 ≤ ((VehicleDynamics.init 1800).update 100 (1/10) 10).velocity_mps ∧
     (VehicleDynamics.init 1800).position_m ≤
       ((VehicleDynamics.init 1800).update 100 (1/10) 10).position_m) :=
  ⟨by norm_num, by norm_num [VehicleDynamics.init],
    update_velocity_nonneg_position_monotone (VehicleDynamics.init 1800) 100
      (1/10) 10 (by norm_num) (by norm_num [VehicleDynamics.init])⟩

/-- Claim C4: draining the default 75 kWh pack to SOC 0 drives
`current_voltage` to exactly 0, and the next `discharge` call then divides
`power_kw * 1000` by that zero voltage with no epsilon floor — a
`ZeroDivisionError` (modelled as `none`) instead of the guarded division the
spec requires. -/
theorem discharge_unguarded_division_by_zero_voltage :
    (((BatteryPack.init 75 400).discharge 1000000 1 zeroNoise zeroNoise).map
        BatteryPack.current_voltage = some 0) ∧
    ((((BatteryPack.init 75 400).discharge 1000000 1 zeroNoise zeroNoise).bind
        (fun b => b.discharge 10 1 zeroNoise zeroNoise)) = none) := by
  have h1 : (BatteryPack.init 75 400).discharge 1000000 1 zeroNoise zeroNoise
      = some ((BatteryPack.init 75 400).dischargeRun 1000000 1 zeroNoise zeroNoise) := by
    rw [BatteryPack.discharge, if_neg]
    norm_num [BatteryPack.init]
  have h2 : ((BatteryPack.init 75 400).dischargeRun 1000000 1 zeroNoise
      zeroNoise).current_voltage = 0 := by
    simp only [BatteryPack.dischargeRun, BatteryPack.init,
      BatteryPack.efficiency_discharge, pymax]
    norm_num
  refine ⟨?_, ?_⟩
  · rw [h1]
    simp [h2]
  · rw [h1]
    show ((BatteryPack.init 75 400).dischargeRun 1000000 1 zeroNoise
      zeroNoise).discharge 10 1 zeroNoise zeroNoise = none
    rw [BatteryPack.discharge, if_pos h2]

/-- Claim C5 (counterexample): on a fresh twin, stepping with brake input 200
is observably different from stepping with the inputs clamped into [0,100]
(the brake force doubles), so `step` does not behave as if it clamped. -/
theorem step_differs_from_clamped_inputs :
    ((DigitalTwin.init specConfig).step 0 200 (1/10) zeroNoise zeroNoise) ≠
    ((DigitalTwin.init specConfig).step (clampSpec 0) (clampSpec 200) (1/10)
      zeroNoise zeroNoise) := by
  have hm : ((DigitalTwin.init specConfig).stepMotor 0).current_power_kw = 0 := by
    simp only [DigitalTwin.stepMotor, ElectricMotor.apply_load, DigitalTwin.init,
      specConfig, ElectricMotor.init, VehicleDynamics.init, pymin]
    norm_num
  have hc0 : clampSpec 0 = 0 := by norm_num [clampSpec, pymin, pymax]
  have hc200 : clampSpec 200 = 100 := by norm_num [clampSpec, pymin, pymax]
  intro h
  rw [hc0, hc200] at h
  have h2 := congrArg (Option.map (fun t1 => t1.dynamics.brake_force_n)) h
  simp only [DigitalTwin.step, DigitalTwin.stepBattery, hm, lt_self_iff_false,
    if_false] at h2
  norm_num [VehicleDynamics.update, VehicleDynamics.apply_brakes,
    DigitalTwin.init, specConfig, VehicleDynamics.init, Function.comp] at h2

/-- Claim C5 (amended): `DigitalTwin.step` performs no clamping of its
control inputs: whenever a step completes, the brake percentage has been
propagated unchanged into `brake_force_n = mass * 9.81 * 0.8 * (brake/100)`,
also for values outside [0, 100]. -/
theorem step_propagates_unclamped_brake (t : DigitalTwin)
    (throttle_percent brake_percent time_step_s : ℚ) (noiseV noiseT : ℕ → ℚ) :
    optSat (fun t1 => t1.dynamics.brake_force_n =
        t.dynamics.mass_kg * (981/100) * (8/10) * (brake_percent / 100))
      (t.step throttle_percent brake_percent time_step_s noiseV noiseT) := by
  unfold DigitalTwin.step
  cases h : t.stepBattery (t.stepMotor throttle_percent) time_step_s noiseV noiseT with
  | none => simp [optSat]
  | some b =>
    simp [optSat, VehicleDynamics.update, VehicleDynamics.apply_brakes]

/-- Claim C6 (counterexample): two `get_telemetry` calls on the same twin
state taken at distinct wall-clock instants return different snapshots,
because the snapshot embeds the `datetime.now()` reading. -/
theorem get_telemetry_differs_across_calls :
    (DigitalTwin.init specConfig).get_telemetry 0 ≠
    (DigitalTwin.init specConfig).get_telemetry 1 := by
  intro h
  have h2 := congrArg TelemetrySnapshot.timestamp h
  simp only [DigitalTwin.get_telemetry] at h2
  exact absurd h2 (by norm_num)

/-- Claim C6 (amended): with no intervening `step`, repeated `get_telemetry`
calls agree on every field except the wall-clock `timestamp` (in particular
all three subsystem `get_status` views are identical), and two snapshots are
fully identical exactly when the wall-clock readings coincide. -/
theorem get_telemetry_repeat_agrees_except_timestamp (t : DigitalTwin)
    (now1 now2 : ℕ) :
    (t.get_telemetry now1).simulation_time = (t.get_telemetry now2).simulation_time ∧
    (t.get_telemetry now1).motor = (t.get_telemetry now2).motor ∧
    (t.get_telemetry now1).battery = (t.get_telemetry now2).battery ∧
    (t.get_telemetry now1).vehicle = (t.get_telemetry now2).vehicle ∧
    (t.get_telemetry now1 = t.get_telemetry now2 ↔ now1 = now2) := by
  refine ⟨rfl, rfl, rfl, rfl, ?_, ?_⟩
  · intro h
    exact congrArg TelemetrySnapshot.timestamp h
  · intro h
    rw [h]

/-- Claim C10: `BatteryPack.charge` mutates only `current_charge_kwh` and
`current_amperage`; whenever the call completes, voltage, temperature, state
of health, cycle count and all sensor values are unchanged. -/
theorem charge_mutates_only_charge_and_amperage (b : BatteryPack)
    (power_kw time_step_hours : ℚ) :
    optSat (fun b1 =>
        b1.current_voltage = b.current_voltage ∧
        b1.temperature_c = b.temperature_c ∧
        b1.health_soh = b.health_soh ∧
        b1.cycle_count = b.cycle_count ∧
        b1.cell_voltages = b.cell_voltages ∧
        b1.temp_sensors = b.temp_sensors)
      (b.charge power_kw time_step_hours) := by
  unfold BatteryPack.charge
  split
  · exact trivial
  · simp [optSat, BatteryPack.chargeRun]

/-- One battery call of a C1 sequence: a `discharge` or a `charge` with its
arguments (and, for discharge, its sensor-noise draws). -/
inductive BatteryOp where
  | discharge (power_kw time_step_hours : ℚ) (noiseV noiseT : ℕ → ℚ)
  | charge (power_kw time_step_hours : ℚ)

/-- The call has non-negative power and time step, as claim C1 assumes. -/
def BatteryOp.nonneg : BatteryOp → Prop
  | .discharge power_kw time_step_hours _ _ => 0 ≤ power_kw ∧ 0 ≤ time_step_hours
  | .charge power_kw time_step_hours => 0 ≤ power_kw ∧ 0 ≤ time_step_hours

/-- Apply one battery call. -/
def BatteryPack.applyOp (b : BatteryPack) : BatteryOp → Option BatteryPack
  | .discharge power_kw time_step_hours noiseV noiseT =>
    b.discharge power_kw time_step_hours noiseV noiseT
  | .charge power_kw time_step_hours => b.charge power_kw time_step_hours

/-- Run a sequence of battery calls, stopping at the first raised error. -/
def BatteryPack.runOps : BatteryPack → List BatteryOp → Option BatteryPack
  | b, [] => some b
  | b, op :: ops => (b.applyOp op).bind (fun b1 => b1.runOps ops)

/-- The C1 invariant: `0 <= current_charge_kwh <= capacity_kwh`. -/
def chargeWithinCapacity (b : BatteryPack) : Prop :=
  0 ≤ b.current_charge_kwh ∧ b.current_charge_kwh ≤ b.capacity_kwh

theorem efficiency_discharge_pos (b : BatteryPack) :
    0 < b.efficiency_discharge := by
  simp only [BatteryPack.efficiency_discharge]
  split_ifs <;> norm_num

theorem applyOp_invariant (b : BatteryPack) (op : BatteryOp) (hop : op.nonneg)
    (hinv : chargeWithinCapacity b) :
    optSat (fun b1 => chargeWithinCapacity b1 ∧ b1.capacity_kwh = b.capacity_kwh)
      (b.applyOp op) := by
  obtain ⟨h0, hcap⟩ := hinv
  cases op with
  | discharge p dt nv nt =>
    obtain ⟨hp, hdt⟩ := hop
    show optSat _ (b.discharge p dt nv nt)
    unfold BatteryPack.discharge
    split_ifs with hv
    · exact trivial
    · have heff := efficiency_discharge_pos b
      simp only [optSat, BatteryPack.dischargeRun, chargeWithinCapacity,
        and_true, eq_self_iff_true]
      rw [pymax_eq]
      have hx : 0 ≤ p * dt / b.efficiency_discharge :=
        div_nonneg (mul_nonneg hp hdt) heff.le
      exact ⟨le_max_left _ _, max_le (h0.trans hcap) (by linarith)⟩
  | charge p dt =>
    obtain ⟨hp, hdt⟩ := hop
    show optSat _ (b.charge p dt)
    unfold BatteryPack.charge
    split_ifs with hv
    · exact trivial
    · simp only [optSat, BatteryPack.chargeRun, BatteryPack.efficiency_charge,
        chargeWithinCapacity]
      rw [pymin_eq]
      have he : 0 ≤ p * dt * (92/100) := by positivity
      exact ⟨⟨le_min (h0.trans hcap) (by linarith), min_le_left _ _⟩, trivial⟩

/-- Claim C1: starting from a state with the charge inside [0, capacity],
any sequence of `discharge`/`charge` calls with non-negative power and time
step keeps `current_charge_kwh` within [0, capacity_kwh] after each call
that completes. -/
theorem battery_charge_invariant (ops : List BatteryOp) (b : BatteryPack)
    (hops : ∀ op ∈ ops, op.nonneg) (hinv : chargeWithinCapacity b) :
    optSat chargeWithinCapacity (b.runOps ops) := by
  induction ops generalizing b with
  | nil => exact hinv
  | cons op ops ih =>
    have h1 := applyOp_invariant b op (hops op (List.mem_cons_self op ops)) hinv
    show optSat chargeWithinCapacity ((b.applyOp op).bind fun b1 => b1.runOps ops)
    cases hap : b.applyOp op with
    | none => exact trivial
    | some b1 =>
      rw [hap] at h1
      exact ih b1 (fun o ho => hops o (List.mem_cons_of_mem _ ho)) h1.1

/-- A concrete two-call sequence for the C1 witness. -/
def demoOps : List BatteryOp :=
  [.discharge 10 1 zeroNoise zeroNoise, .charge 5 1]

/-- Claim C1 (witness): the invariant theorem applied to the default 75 kWh
pack and the concrete discharge-then-charge sequence. -/
theorem battery_charge_invariant_witness :
    (∀ op ∈ demoOps, op.nonneg) ∧ chargeWithinCapacity (BatteryPack.init 75 400) ∧
    optSat chargeWithinCapacity ((BatteryPack.init 75 400).runOps demoOps) := by
  have h1 : ∀ op ∈ demoOps, op.nonneg := by
    intro op hop
    simp only [demoOps, List.mem_cons, List.not_mem_nil, or_false] at hop
    rcases hop with h | h
    · subst h; exact ⟨by norm_num, by norm_num⟩
    · subst h; exact ⟨by norm_num, by norm_num⟩
  have h2 : chargeWithinCapacity (BatteryPack.init 75 400) := by
    constructor <;> norm_num [BatteryPack.init]
  exact ⟨h1, h2, battery_charge_invariant demoOps (BatteryPack.init 75 400) h1 h2⟩

theorem pymod_nonneg (t m : ℚ) (hm : 0 < m) : 0 ≤ pymod t m := by
  unfold pymod
  have h := Int.floor_le (t / m)
  have h2 : m * ((⌊t / m⌋ : ℤ) : ℚ) ≤ m * (t / m) :=
    mul_le_mul_of_nonneg_left h hm.le
  have h3 : m * (t / m) = t := by field_simp
  linarith

theorem pymod_lt (t m : ℚ) (hm : 0 < m) : pymod t m < m := by
  unfold pymod
  have h := Int.lt_floor_add_one (t / m)
  have h2 : m * (t / m) < m * (((⌊t / m⌋ : ℤ) : ℚ) + 1) :=
    (mul_lt_mul_left hm).mpr h
  have h3 : m * (t / m) = t := by field_simp
  nlinarith

theorem pymod_period (t m : ℚ) (hm : m ≠ 0) : pymod (t + m) m = pymod t m := by
  unfold pymod
  have h : (t + m) / m = t / m + 1 := by field_simp
  rw [h, Int.floor_add_one]
  push_cast
  ring

/-- Claim C7: the Urban control-input function is periodic with period 60 s,
and its throttle and brake outputs always lie in [0, 100]. -/
theorem urban_control_periodic_and_in_range (t : ℚ) (_ht : 0 ≤ t) :
    UrbanDrivingScenario.get_control_inputs (t + 60) =
      UrbanDrivingScenario.get_control_inputs t ∧
    0 ≤ (UrbanDrivingScenario.get_control_inputs t).1 ∧
    (UrbanDrivingScenario.get_control_inputs t).1 ≤ 100 ∧
    0 ≤ (UrbanDrivingScenario.get_control_inputs t).2 ∧
    (UrbanDrivingScenario.get_control_inputs t).2 ≤ 100 := by
  have h0 := pymod_nonneg t 60 (by norm_num)
  have h60 := pymod_lt t 60 (by norm_num)
  refine ⟨?_, ?_⟩
  · unfold UrbanDrivingScenario.get_control_inputs
    rw [pymod_period t 60 (by norm_num)]
  · simp only [UrbanDrivingScenario.get_control_inputs]
    split_ifs with h1 h2 h3 <;> dsimp only
    · rw [pymin_eq]
      refine ⟨le_min (by linarith) (by norm_num), ?_, by norm_num, by norm_num⟩
      exact (min_le_right _ _).trans (by norm_num)
    · exact ⟨by norm_num, by norm_num, by norm_num, by norm_num⟩
    · push_neg at h2
      exact ⟨by norm_num, by norm_num, by linarith, by linarith⟩
    · exact ⟨by norm_num, by norm_num, by norm_num, by norm_num⟩

/-- Claim C7 (witness): the theorem applied at t = 5. -/
theorem urban_control_periodic_and_in_range_witness :
    (0 ≤ (5 : ℚ)) ∧
    (UrbanDrivingScenario.get_control_inputs (5 + 60) =
       UrbanDrivingScenario.get_control_inputs 5 ∧
     0 ≤ (UrbanDrivingScenario.get_control_inputs 5).1 ∧
     (UrbanDrivingScenario.get_control_inputs 5).1 ≤ 100 ∧
     0 ≤ (UrbanDrivingScenario.get_control_inputs 5).2 ∧
     (UrbanDrivingScenario.get_control_inputs 5).2 ≤ 100) :=
  ⟨by norm_num, urban_control_periodic_and_in_range 5 (by norm_num)⟩

theorem loopOutcome_ne_unknown (o : Option DigitalTwin) (e e1 : SimulationEngine) :
    loopOutcome o e ≠ SimOutcome.unknownScenario e1 := by
  cases o <;> simp [loopOutcome]

theorem lookupScenario_none_iff (npSin : ℚ → ℚ) (scenario_name : String) :
    lookupScenario npSin scenario_name = none ↔
      scenario_name ∉ ["urban", "highway", "aggressive", "eco"] := by
  unfold lookupScenario
  split_ifs with h1 h2 h3 h4
  · simp [h1]
  · simp [h2]
  · simp [h3]
  · simp [h4]
  · simp [h1, h2, h3, h4]

/-- Claim C8: `run_scenario` returns the unknown-scenario error exactly when
the requested name is not one of the four registered names, and in that case
it returns with the engine (its twin state and telemetry log included)
unchanged, having raised before running any step. -/
theorem run_scenario_unknown_exactly_when_unregistered (e : SimulationEngine)
    (scenario_name : String) (log_interval : ℕ)
    (noiseV noiseT : ℕ → ℕ → ℚ) (clock : ℕ → ℕ) (npSin : ℚ → ℚ) :
    ((∃ e1, e.run_scenario scenario_name log_interval noiseV noiseT clock npSin
        = SimOutcome.unknownScenario e1) ↔
      scenario_name ∉ ["urban", "highway", "aggressive", "eco"]) ∧
    (scenario_name ∉ ["urban", "highway", "aggressive", "eco"] →
      e.run_scenario scenario_name log_interval noiseV noiseT clock npSin
        = SimOutcome.unknownScenario e) := by
  have hbase : (∃ e1, e.run_scenario scenario_name log_interval noiseV noiseT
      clock npSin = SimOutcome.unknownScenario e1) ↔
      lookupScenario npSin scenario_name = none := by
    unfold SimulationEngine.run_scenario
    rcases hl : lookupScenario npSin scenario_name with _ | sc
    · simp
    · constructor
      · rintro ⟨e1, he⟩
        exact absurd he (loopOutcome_ne_unknown _ _ _)
      · intro h
        exact Option.noConfusion h
  refine ⟨hbase.trans (lookupScenario_none_iff npSin scenario_name), ?_⟩
  intro h
  have hl := (lookupScenario_none_iff npSin scenario_name).mpr h
  unfold SimulationEngine.run_scenario
  rw [hl]

/-- Claim C8 (witness): requesting the unregistered name "offroad" on a
fresh engine returns the unknown-scenario error with the engine unchanged. -/
theorem run_scenario_unknown_witness :
    ("offroad" ∉ ["urban", "highway", "aggressive", "eco"]) ∧
    (SimulationEngine.mk (DigitalTwin.init specConfig) (1/10)).run_scenario
        "offroad" 10 (fun _ _ => 0) (fun _ _ => 0) (fun i => i) (fun _ => 0)
      = SimOutcome.unknownScenario
          (SimulationEngine.mk (DigitalTwin.init specConfig) (1/10)) :=
  ⟨by decide,
    (run_scenario_unknown_exactly_when_unregistered
      (SimulationEngine.mk (DigitalTwin.init specConfig) (1/10)) "offroad" 10
      (fun _ _ => 0) (fun _ _ => 0) (fun i => i) (fun _ => 0)).2 (by decide)⟩

theorem apply_load_max_power (m : ElectricMotor) (r w : ℚ) :
    (m.apply_load r w).max_power_kw = m.max_power_kw := by
  simp [ElectricMotor.apply_load]

theorem apply_load_power_le_max (m : ElectricMotor) (r w : ℚ) :
    (m.apply_load r w).current_power_kw ≤ m.max_power_kw := by
  simp only [ElectricMotor.apply_load]
  rw [pymin_eq]
  exact min_le_right _ _

theorem efficiency_discharge_ge (b : BatteryPack) :
    361/400 ≤ b.efficiency_discharge := by
  simp only [BatteryPack.efficiency_discharge]
  split_ifs <;> norm_num

theorem dischargeRun_capacity (b : BatteryPack) (p dt : ℚ) (nv nt : ℕ → ℚ) :
    (b.dischargeRun p dt nv nt).capacity_kwh = b.capacity_kwh := by
  simp [BatteryPack.dischargeRun]

theorem dischargeRun_nominal (b : BatteryPack) (p dt : ℚ) (nv nt : ℕ → ℚ) :
    (b.dischargeRun p dt nv nt).nominal_voltage = b.nominal_voltage := by
  simp [BatteryPack.dischargeRun]

theorem dischargeRun_voltage (b : BatteryPack) (p dt : ℚ) (nv nt : ℕ → ℚ) :
    (b.dischargeRun p dt nv nt).current_voltage =
      b.nominal_voltage * ((b.dischargeRun p dt nv nt).current_charge_kwh /
        b.capacity_kwh) := by
  simp [BatteryPack.dischargeRun]

theorem dischargeRun_charge_lb (b : BatteryPack) (p : ℚ) (nv nt : ℕ → ℚ)
    (_hp : 0 ≤ p) (hple : p ≤ 150) :
    b.current_charge_kwh - 5/1083 ≤
      (b.dischargeRun p ((1/10) / 3600) nv nt).current_charge_kwh := by
  simp only [BatteryPack.dischargeRun]
  rw [pymax_eq]
  have heff := efficiency_discharge_ge b
  have h1 : p * ((1/10) / 3600) / b.efficiency_discharge ≤ 5/1083 := by
    have hnum : p * ((1/10) / 3600) ≤ 1/240 := by nlinarith
    calc p * ((1/10) / 3600) / b.efficiency_discharge
        ≤ (1/240) / (361/400) := div_le_div₀ (by norm_num) hnum (by norm_num) heff
      _ = 5/1083 := by norm_num
  have h2 := le_max_right (0 : ℚ)
    (b.current_charge_kwh - p * ((1/10) / 3600) / b.efficiency_discharge)
  linarith

/-- One `DigitalTwin.step` with time step 0.1 s, from a state with positive
battery voltage and the spec configuration's 150 kW motor limit: the step
completes, consumes at most 5/1083 kWh, keeps the voltage positive as long
as charge remains, advances the clock by 0.1 s and leaves the log alone. -/
theorem step_spec (t : DigitalTwin) (th br : ℚ) (nv nt : ℕ → ℚ)
    (hmax : t.motor.max_power_kw = 150)
    (hcap : t.battery.capacity_kwh = 75)
    (hnom : t.battery.nominal_voltage = 400)
    (hv : 0 < t.battery.current_voltage) :
    ∃ t1, t.step th br (1/10) nv nt = some t1 ∧
      t1.motor.max_power_kw = 150 ∧
      t1.battery.capacity_kwh = 75 ∧
      t1.battery.nominal_voltage = 400 ∧
      t.battery.current_charge_kwh - 5/1083 ≤ t1.battery.current_charge_kwh ∧
      (0 < t1.battery.current_charge_kwh → 0 < t1.battery.current_voltage) ∧
      t1.simulation_time = t.simulation_time + 1/10 ∧
      t1.telemetry_log = t.telemetry_log := by
  have hmp : (t.stepMotor th).max_power_kw = 150 := by
    rw [DigitalTwin.stepMotor, apply_load_max_power]
    exact hmax
  have hple : (t.stepMotor th).current_power_kw ≤ 150 := by
    rw [DigitalTwin.stepMotor]
    exact (apply_load_power_le_max t.motor _ _).trans (le_of_eq hmax)
  by_cases hpow : 0 < (t.stepMotor th).current_power_kw
  · have hvne : t.battery.current_voltage ≠ 0 := ne_of_gt hv
    have hsb : t.stepBattery (t.stepMotor th) (1/10) nv nt
        = some (t.battery.dischargeRun (t.stepMotor th).current_power_kw
            ((1/10) / 3600) nv nt) := by
      unfold DigitalTwin.stepBattery
      rw [if_pos hpow]
      unfold BatteryPack.discharge
      rw [if_neg hvne]
    have hstep : t.step th br (1/10) nv nt = some
        { motor := t.stepMotor th,
          battery := t.battery.dischargeRun (t.stepMotor th).current_power_kw
            ((1/10) / 3600) nv nt,
          dynamics := (t.dynamics.apply_brakes br).update
            (t.stepMotor th).current_torque_nm (1/10) 10,
          simulation_time := t.simulation_time + 1/10,
          telemetry_log := t.telemetry_log } := by
      unfold DigitalTwin.step
      rw [hsb]
      rfl
    refine ⟨_, hstep, hmp, ?_, ?_, ?_, ?_, rfl, rfl⟩
    · exact (dischargeRun_capacity t.battery _ _ nv nt).trans hcap
    · exact (dischargeRun_nominal t.battery _ _ nv nt).trans hnom
    · exact dischargeRun_charge_lb t.battery _ nv nt hpow.le hple
    · intro hpos
      rw [dischargeRun_voltage t.battery _ _ nv nt, hnom, hcap]
      exact mul_pos (by norm_num) (div_pos hpos (by norm_num))
  · have hsb : t.stepBattery (t.stepMotor th) (1/10) nv nt = some t.battery := by
      unfold DigitalTwin.stepBattery
      rw [if_neg hpow]
    have hstep : t.step th br (1/10) nv nt = some
        { motor := t.stepMotor th,
          battery := t.battery,
          dynamics := (t.dynamics.apply_brakes br).update
            (t.stepMotor th).current_torque_nm (1/10) 10,
          simulation_time := t.simulation_time + 1/10,
          telemetry_log := t.telemetry_log } := by
      unfold DigitalTwin.step
      rw [hsb]
      rfl
    exact ⟨_, hstep, hmp, hcap, hnom, by linarith, fun _ => hv, rfl, rfl⟩

theorem round2_natCast (k : ℕ) : round2 (k : ℚ) = k := by
  unfold round2 roundHalfEven
  have h1 : ((k : ℚ) * 100) = (((k * 100 : ℕ) : ℤ) : ℚ) := by
    push_cast
    ring
  rw [h1, Int.floor_intCast]
  norm_num

/-- The Urban run's loop invariant: starting the loop at step `stepIdx` with
the matching counter, simulation time and log contents, with enough battery
reserve for the `n` remaining steps, the loop completes and the final log
holds one snapshot per 10 steps, with snapshot i recording simulation time
i + 1. -/
theorem urban_loop (nv nt : ℕ → ℕ → ℚ) (ck : ℕ → ℕ) :
    ∀ (n stepIdx : ℕ) (t : DigitalTwin),
      t.motor.max_power_kw = 150 →
      t.battery.capacity_kwh = 75 →
      t.battery.nominal_voltage = 400 →
      0 < t.battery.current_voltage →
      (n : ℚ) * (5/1083) < t.battery.current_charge_kwh →
      t.simulation_time = (stepIdx : ℚ) / 10 →
      t.telemetry_log.map TelemetrySnapshot.simulation_time
        = (List.range (stepIdx / 10)).map (fun i : ℕ => ((i : ℚ) + 1)) →
      ∃ t2, runScenarioLoop UrbanDrivingScenario.get_control_inputs (1/10) 10
          nv nt ck t stepIdx n (stepIdx % 10) = some t2 ∧
        t2.telemetry_log.map TelemetrySnapshot.simulation_time
          = (List.range ((stepIdx + n) / 10)).map (fun i : ℕ => ((i : ℚ) + 1)) := by
  intro n
  induction n with
  | zero =>
    intro stepIdx t _ _ _ _ _ _ h7
    exact ⟨t, rfl, by simpa using h7⟩
  | succ n ih =>
    intro stepIdx t h1 h2 h3 h4 h5 h6 h7
    obtain ⟨t1, hstep, hm1, hc1, hn1, hlb, hvimp, hsim1, hlog1⟩ :=
      step_spec t
        (UrbanDrivingScenario.get_control_inputs ((stepIdx : ℚ) * (1/10))).1
        (UrbanDrivingScenario.get_control_inputs ((stepIdx : ℚ) * (1/10))).2
        (nv stepIdx) (nt stepIdx) h1 h2 h3 h4
    push_cast at h5
    have hzn : (0 : ℚ) ≤ (n : ℚ) * (5/1083) := by positivity
    have hchg1 : (n : ℚ) * (5/1083) < t1.battery.current_charge_kwh := by
      linarith
    have hpos1 : 0 < t1.battery.current_charge_kwh := lt_of_le_of_lt hzn hchg1
    have hv1 : 0 < t1.battery.current_voltage := hvimp hpos1
    have hsim1q : t1.simulation_time = ((stepIdx + 1 : ℕ) : ℚ) / 10 := by
      rw [hsim1, h6]
      push_cast
      ring
    simp only [runScenarioLoop, hstep]
    by_cases hc : stepIdx % 10 = 9
    · rw [if_pos (by omega : 10 ≤ stepIdx % 10 + 1)]
      have hdiv : (stepIdx + 1) / 10 = stepIdx / 10 + 1 := by omega
      have hlogmap : (t1.log_telemetry (ck stepIdx)).telemetry_log.map
          TelemetrySnapshot.simulation_time
          = (List.range ((stepIdx + 1) / 10)).map (fun i : ℕ => ((i : ℚ) + 1)) := by
        have hsnap : (t1.get_telemetry (ck stepIdx)).simulation_time
            = ((stepIdx / 10 : ℕ) : ℚ) + 1 := by
          show round2 t1.simulation_time = _
          have h10 : ((stepIdx + 1 : ℕ) : ℚ) / 10 = ((stepIdx / 10 + 1 : ℕ) : ℚ) := by
            have hx : stepIdx + 1 = 10 * (stepIdx / 10 + 1) := by omega
            rw [hx]
            push_cast
            ring
          rw [hsim1q, h10, round2_natCast]
          push_cast
          ring
        simp only [DigitalTwin.log_telemetry, List.map_append, hlog1, h7,
          List.map_cons, List.map_nil, hsnap]
        rw [hdiv, List.range_succ, List.map_append, List.map_cons, List.map_nil]
      obtain ⟨t2, hrec, hmap2⟩ := ih (stepIdx + 1) (t1.log_telemetry (ck stepIdx))
        (by simpa [DigitalTwin.log_telemetry] using hm1)
        (by simpa [DigitalTwin.log_telemetry] using hc1)
        (by simpa [DigitalTwin.log_telemetry] using hn1)
        (by simpa [DigitalTwin.log_telemetry] using hv1)
        (by simpa [DigitalTwin.log_telemetry] using hchg1)
        (by simpa [DigitalTwin.log_telemetry] using hsim1q)
        hlogmap
      rw [(by omega : (stepIdx + 1) % 10 = 0)] at hrec
      refine ⟨t2, hrec, ?_⟩
      rw [(by omega : stepIdx + (n + 1) = stepIdx + 1 + n)]
      exact hmap2
    · rw [if_neg (by omega : ¬ 10 ≤ stepIdx % 10 + 1)]
      have hdiv : (stepIdx + 1) / 10 = stepIdx / 10 := by omega
      obtain ⟨t2, hrec, hmap2⟩ := ih (stepIdx + 1) t1 hm1 hc1 hn1 hv1 hchg1
        hsim1q (by rw [hlog1, h7, hdiv])
      rw [(by omega : (stepIdx + 1) % 10 = stepIdx % 10 + 1)] at hrec
      refine ⟨t2, hrec, ?_⟩
      rw [(by omega : stepIdx + (n + 1) = stepIdx + 1 + n)]
      exact hmap2

/-- Claim C9: running the Urban scenario (600 s declared duration) with time
step 0.1 and log interval 10 on a fresh twin built from the spec
configuration completes all floor(600/0.1) = 6000 steps and produces exactly
600 telemetry snapshots, in chronological order (snapshot i records
simulation time i + 1 seconds). -/
theorem urban_run_600_snapshots (noiseV noiseT : ℕ → ℕ → ℚ) (clock : ℕ → ℕ)
    (npSin : ℚ → ℚ) :
    (⌊urbanScenario.duration_s / ((1 : ℚ)/10)⌋).toNat = 6000 ∧
    ∃ e2, (SimulationEngine.mk (DigitalTwin.init specConfig) (1/10)).run_scenario
        "urban" 10 noiseV noiseT clock npSin = SimOutcome.ok e2 ∧
      e2.digital_twin.telemetry_log.length = 600 ∧
      e2.digital_twin.telemetry_log.map TelemetrySnapshot.simulation_time
        = (List.range 600).map (fun i : ℕ => ((i : ℚ) + 1)) := by
  have hsteps : (⌊urbanScenario.duration_s / ((1 : ℚ)/10)⌋).toNat = 6000 := by
    show (⌊(600 : ℚ) / (1/10)⌋).toNat = 6000
    norm_num
    decide
  obtain ⟨t2, hloop, hmap⟩ := urban_loop noiseV noiseT clock 6000 0
    (DigitalTwin.init specConfig)
    rfl rfl rfl (by norm_num [DigitalTwin.init, BatteryPack.init, specConfig])
    (by norm_num [DigitalTwin.init, BatteryPack.init, specConfig])
    (by norm_num [DigitalTwin.init, specConfig])
    (by simp [DigitalTwin.init, specConfig])
  norm_num at hmap
  refine ⟨hsteps, SimulationEngine.mk t2 (1/10), ?_, ?_, hmap⟩
  · unfold SimulationEngine.run_scenario
    rw [(by unfold lookupScenario; rw [if_pos rfl] :
      lookupScenario npSin "urban" = some urbanScenario)]
    show loopOutcome (runScenarioLoop UrbanDrivingScenario.get_control_inputs
      (1/10) 10 noiseV noiseT clock (DigitalTwin.init specConfig) 0
      ((⌊urbanScenario.duration_s / ((1 : ℚ)/10)⌋).toNat) 0) _ = _
    rw [hsteps]
    rw [(by simpa using hloop : runScenarioLoop
      UrbanDrivingScenario.get_control_inputs (1/10) 10 noiseV noiseT clock
      (DigitalTwin.init specConfig) 0 6000 0 = some t2)]
    rfl
  · have hlen := congrArg List.length hmap
    simpa using hlen

end SiemensAuto
